import Mathlib

/-!
Shallow embedding of the vstats monitoring hub (zsai001/vstats).

Server side (src/server/src): the agent session loop of
`websocket.rs::handle_agent_socket`, the snapshot composition shared by the
dashboard attach path, the per-ingest broadcast, the per-disconnect broadcast
and `handlers.rs::get_all_metrics`, the `handlers.rs::get_history` 24h query,
`handlers.rs::update_agent` and `handlers.rs::delete_server`.

Agent side (src/agent/src): the self-update dance of
`websocket.rs::handle_update_command`.

Time is modelled in whole seconds (chrono `DateTime<Utc>`,
`signed_duration_since(..).num_seconds()`); f32/f64 metric values are
modelled as rationals (no arithmetic on them is relevant to the verified
paths); `tokio::sync::mpsc` channels are modelled as explicit queues with a
closed flag; `HashMap` state is modelled as association lists with
insert-replaces-key semantics.
-/

namespace VStats

/-! ### Association-list maps (model of `HashMap<String, _>` registry state) -/

/-- Lookup in an association-list map (model of `HashMap::get`). -/
def mapLookup {κ α : Type} [DecidableEq κ] : List (κ × α) → κ → Option α
  | [], _ => none
  | p :: rest, k => if p.1 = k then some p.2 else mapLookup rest k

/-- Remove a key (model of `HashMap::remove`). -/
def mapRemove {κ α : Type} [DecidableEq κ] : List (κ × α) → κ → List (κ × α)
  | [], _ => []
  | p :: rest, k => if p.1 = k then mapRemove rest k else p :: mapRemove rest k

/-- Insert, replacing any existing binding (model of `HashMap::insert`). -/
def mapInsert {κ α : Type} [DecidableEq κ] (m : List (κ × α)) (k : κ) (v : α) :
    List (κ × α) :=
  (k, v) :: mapRemove m k

/-! ### Data model (src/server/src/types.rs, src/server/src/config.rs) -/

/-- Mirror of `types.rs::OsInfo`. -/
structure OsInfo where
  name : String
  version : String
  kernel : String
  arch : String
deriving DecidableEq

/-- Mirror of `types.rs::CpuMetrics` (`f32` usage modelled as `Rat`). -/
structure CpuMetrics where
  brand : String
  cores : Nat
  usage : Rat
  frequency : Nat
  per_core : List Rat
deriving DecidableEq

/-- Mirror of `types.rs::MemoryMetrics`. -/
structure MemoryMetrics where
  total : Nat
  used : Nat
  available : Nat
  swap_total : Nat
  swap_used : Nat
  usage_percent : Rat
deriving DecidableEq

/-- Mirror of `types.rs::DiskMetrics`. -/
structure DiskMetrics where
  name : String
  mount_point : String
  fs_type : String
  total : Nat
  used : Nat
  available : Nat
  usage_percent : Rat
deriving DecidableEq

/-- Mirror of `types.rs::NetworkInterface`. -/
structure NetworkInterface where
  name : String
  rx_bytes : Nat
  tx_bytes : Nat
  rx_packets : Nat
  tx_packets : Nat
deriving DecidableEq

/-- Mirror of `types.rs::NetworkMetrics`. -/
structure NetworkMetrics where
  interfaces : List NetworkInterface
  total_rx : Nat
  total_tx : Nat
  rx_speed : Nat
  tx_speed : Nat
deriving DecidableEq

/-- Mirror of `types.rs::LoadAverage`. -/
structure LoadAverage where
  one : Rat
  five : Rat
  fifteen : Rat
deriving DecidableEq

/-- Mirror of `types.rs::PingTarget`. -/
structure PingTarget where
  name : String
  host : String
  latency_ms : Option Rat
  packet_loss : Rat
  status : String
deriving DecidableEq

/-- Mirror of `types.rs::PingMetrics`. -/
structure PingMetrics where
  targets : List PingTarget
deriving DecidableEq

/-- Mirror of `types.rs::SystemMetrics`; the `DateTime<Utc>` timestamp is epoch seconds. -/
structure SystemMetrics where
  timestamp : Int
  hostname : String
  os : OsInfo
  cpu : CpuMetrics
  memory : MemoryMetrics
  disks : List DiskMetrics
  network : NetworkMetrics
  uptime : Nat
  load_average : LoadAverage
  ping : Option PingMetrics
  version : Option String
  ip_addresses : Option (List String)
deriving DecidableEq

/-- Mirror of `config.rs::RemoteServer`. -/
structure RemoteServer where
  id : String
  name : String
  url : String
  location : String
  provider : String
  tag : String
  token : String
  version : String
  ip : String
deriving DecidableEq

/-- Mirror of `config.rs::SocialLink`. -/
structure SocialLink where
  platform : String
  url : String
  label : String
deriving DecidableEq

/-- Mirror of `config.rs::SiteSettings`. -/
structure SiteSettings where
  site_name : String
  site_description : String
  social_links : List SocialLink
deriving DecidableEq

/-- Mirror of `types.rs::AgentMetricsData` — one registry entry; `last_updated` is the
wall-clock (epoch seconds) at which the sample was accepted. -/
structure AgentMetricsData where
  server_id : String
  metrics : SystemMetrics
  last_updated : Int
deriving DecidableEq

/-- Mirror of `types.rs::ServerMetricsUpdate` — one per-server entry of a snapshot. -/
structure ServerMetricsUpdate where
  server_id : String
  server_name : String
  location : String
  provider : String
  tag : String
  version : String
  ip : String
  online : Bool
  metrics : Option SystemMetrics
deriving DecidableEq

/-- Mirror of `types.rs::DashboardMessage`. -/
structure DashboardMessage where
  msg_type : String
  servers : List ServerMetricsUpdate
  site_settings : Option SiteSettings
deriving DecidableEq

/-- Mirror of `types.rs::AgentMessage` — the parse of an incoming agent text frame.
`msg_type` is the `type` discriminator; the other fields are optional. -/
structure AgentMessage where
  msg_type : String
  server_id : Option String
  token : Option String
  metrics : Option SystemMetrics
deriving DecidableEq

/-- Mirror of `types.rs::AgentCommand` — the hub-to-agent command frame. -/
structure AgentCommand where
  cmd_type : String
  command : String
  download_url : Option String
deriving DecidableEq

/-- Mirror of `types.rs::UpdateAgentResponse`. -/
structure UpdateAgentResponse where
  success : Bool
  message : String
deriving DecidableEq

/-- A frame written by the hub onto one agent's socket
(`handle_agent_socket` writes exactly these literals). -/
inductive OutFrame where
  /-- the literal `type:auth status:ok` frame -/
  | authOk : OutFrame
  /-- a `type:auth status:error` frame with a human-readable `message` -/
  | authError (message : String) : OutFrame
  /-- the literal `type:error message:Not authenticated` frame -/
  | notAuthenticated : OutFrame
  /-- a command frame forwarded from the session's command inbox -/
  | commandFrame (c : AgentCommand) : OutFrame
deriving DecidableEq

/-- A `tokio::sync::mpsc::channel::<Message>(16)` command inbox: the queue of
frames not yet consumed by the session writer, and whether the receiving half
has been dropped. -/
structure Chan where
  queue : List AgentCommand
  closed : Bool
deriving DecidableEq

/-- One `metrics_raw` row (schema of spec §4.2; produced by `db.rs::store_metrics`).
`timestamp` is seconds-of-epoch: the stored ISO-8601 UTC string compares in
the same order, and SQLite `strftime` recovers exactly this value. -/
structure RawRow where
  server_id : String
  timestamp : Int
  cpu : Rat
  memory : Rat
  disk : Rat
  net_rx : Int
  net_tx : Int
  ping_ms : Option Rat
deriving DecidableEq

/-- The hub's shared state.  Modelled from the spec: `src/server/src/state.rs`
(`AppState`) is not under src/; its fields and their shapes are fixed by the
uses in `websocket.rs` and `handlers.rs` — `config` (servers + site settings),
`db` (the `metrics_raw` table), `agent_metrics` (registry), `agent_connections`
(`server_id → command sink`), and the broadcast channel `metrics_tx`, whose
sent frames we record in order.  `channels` carries the per-session command
inboxes, keyed by session channel id; `now` is the wall clock in epoch
seconds. -/
structure Hub where
  servers : List RemoteServer
  siteSettings : SiteSettings
  db : List RawRow
  agentMetrics : List (String × AgentMetricsData)
  agentConnections : List (String × Nat)
  channels : List (Nat × Chan)
  broadcasts : List DashboardMessage
  now : Int
deriving DecidableEq

/-- Per-connection state of `handle_agent_socket`: the channel id of the
session's own `(cmd_tx, cmd_rx)` pair, the peer IP recorded at accept,
`authenticated_server_id`, whether the read loop is still running, and the
frames written to this socket so far. -/
structure Session where
  chanId : Nat
  clientIp : String
  authenticatedServerId : Option String
  isOpen : Bool
  sentFrames : List OutFrame
deriving DecidableEq

/-- A fresh session right after accept (`handle_agent_socket` entry: channel
of capacity 16 created, nothing authenticated, nothing sent). -/
def newSession (cid : Nat) (ip : String) : Session :=
  { chanId := cid, clientIp := ip, authenticatedServerId := none,
    isOpen := true, sentFrames := [] }

/-- The event sources multiplexed by the session's `tokio::select!` loop:
a text frame (given as its `serde_json` parse result, `none` = parse failure),
a close frame, an I/O error, any other frame kind (the `_ => {}` arm), a
delivery from the command inbox, and wall-clock time passing `n` seconds
(the loop has no timer branch, so this is an event only for the clock). -/
inductive InEvent where
  | text (m : Option AgentMessage) : InEvent
  | closeFrame : InEvent
  | ioError : InEvent
  | controlFrame : InEvent
  | cmdRecv : InEvent
  | timePassed (n : Nat) : InEvent
deriving DecidableEq

/-! ### Snapshot composition
The same per-server mapping appears four times in the source: the dashboard
attach path (`websocket.rs:34`), the per-ingest broadcast (`websocket.rs:223`),
the per-disconnect broadcast (`websocket.rs:310`, where the leaving server is
forced offline) and `handlers.rs::get_all_metrics`.  `leaving` is `some id`
exactly on the disconnect path. -/

/-- One server's entry of a composed snapshot. -/
def composeUpdate (am : List (String × AgentMetricsData)) (now : Int)
    (leaving : Option String) (server : RemoteServer) : ServerMetricsUpdate :=
  let md := mapLookup am server.id
  { server_id := server.id
    server_name := server.name
    location := server.location
    provider := server.provider
    tag := server.tag
    version := (md.bind (fun d => d.metrics.version)).getD server.version
    ip := server.ip
    online :=
      if leaving = some server.id then false
      else (md.map (fun d => decide (now - d.last_updated < 30))).getD false
    metrics := md.map (fun d => d.metrics) }

/-- The `servers` list of a composed snapshot. -/
def composeServers (servers : List RemoteServer)
    (am : List (String × AgentMetricsData)) (now : Int)
    (leaving : Option String) : List ServerMetricsUpdate :=
  servers.map (composeUpdate am now leaving)

/-- The initial frame sent to a dashboard subscriber on attach
(`handle_dashboard_socket`): the composed snapshot plus site settings. -/
def dashboardAttachMessage (h : Hub) : DashboardMessage :=
  { msg_type := "metrics"
    servers := composeServers h.servers h.agentMetrics h.now none
    site_settings := some h.siteSettings }

/-- Handler `GET /api/metrics/all` (`handlers.rs::get_all_metrics`). -/
def getAllMetrics (h : Hub) : List ServerMetricsUpdate :=
  composeServers h.servers h.agentMetrics h.now none

/-- The broadcast emitted by CLEANUP (`websocket.rs:307-354`): the leaving
server's entry has `online := false` unconditionally. -/
def disconnectMessage (servers : List RemoteServer)
    (am : List (String × AgentMetricsData)) (now : Int) (sid : String) :
    DashboardMessage :=
  { msg_type := "metrics"
    servers := composeServers servers am now (some sid)
    site_settings := none }

/-! ### Raw-row derivation and upsert -/

/-- Maximum disk usage percentage across disks (0 when no disks). -/
def maxDiskUsage (disks : List DiskMetrics) : Rat :=
  disks.foldr (fun d acc => max d.usage_percent acc) 0

/-- Average ping latency across targets that reported one. -/
def avgPingMs (p : PingMetrics) : Option Rat :=
  let ls := p.targets.filterMap (fun t => t.latency_ms)
  if ls.isEmpty then none else some (ls.sum / (ls.length : Rat))

/-- Modelled from the spec: `src/server/src/db.rs` (`store_metrics`) is not
under src/.  Spec §3 "Raw row": `disk_usage` is the max usage % across disks,
`net_rx`/`net_tx` are the total cumulative counters, `ping_ms` the average
latency across configured ping targets when present. -/
def storeMetricsRow (sid : String) (m : SystemMetrics) : RawRow :=
  { server_id := sid
    timestamp := m.timestamp
    cpu := m.cpu.usage
    memory := m.memory.usage_percent
    disk := maxDiskUsage m.disks
    net_rx := (m.network.total_rx : Int)
    net_tx := (m.network.total_tx : Int)
    ping_ms := m.ping.bind avgPingMs }

/-- Modelled from the spec: `insert_raw` "upserts by PK `(server_id, timestamp)`"
(spec §3/§4.2). -/
def insertRaw (db : List RawRow) (row : RawRow) : List RawRow :=
  row :: db.filter
    (fun r => ¬ (r.server_id = row.server_id ∧ r.timestamp = row.timestamp))

/-! ### The agent session machine (`websocket.rs::handle_agent_socket`) -/

/-- The effective IP for a sample: first agent-reported address if any,
else the peer IP recorded at accept (`websocket.rs:179-182`). -/
def agentIpOf (m : SystemMetrics) (clientIp : String) : String :=
  (m.ip_addresses.bind List.head?).getD clientIp

/-- The accepted-metrics path (`websocket.rs:165-264`): persist the derived
raw row, update the server record's `version`/`ip` (the source writes them
only when changed and then saves the config — value-wise this always-write is
identical), upsert the registry entry with the current wall clock, and
broadcast a freshly composed snapshot. -/
def ingestMetrics (h : Hub) (sid : String) (clientIp : String)
    (m : SystemMetrics) : Hub :=
  let db' := insertRaw h.db (storeMetricsRow sid m)
  let agentIp := agentIpOf m clientIp
  let servers' := h.servers.map (fun srv =>
    if srv.id = sid then
      { srv with version := m.version.getD srv.version, ip := agentIp }
    else srv)
  let am' := mapInsert h.agentMetrics sid
    { server_id := sid, metrics := m, last_updated := h.now }
  { h with
    db := db'
    servers := servers'
    agentMetrics := am'
    broadcasts := h.broadcasts ++
      [{ msg_type := "metrics"
         servers := composeServers servers' am' h.now none
         site_settings := none }] }

/-- Processing of one parsed text frame (`websocket.rs:121-275`).
`none` (a frame `serde_json` could not parse as `AgentMessage`) is skipped.
An `auth` frame missing `server_id` or `token` is skipped.  A failed auth
sends one error frame and — notably — does not break the loop.  A `metrics`
frame on an unauthenticated session sends the `Not authenticated` error frame
and changes no hub state.  Unknown `type` is ignored (`_ => {}`). -/
def handleAgentText (h : Hub) (s : Session) (m? : Option AgentMessage) :
    Hub × Session :=
  match m? with
  | none => (h, s)
  | some msg =>
    if msg.msg_type = "auth" then
      match msg.server_id, msg.token with
      | some sid, some tok =>
        match h.servers.find? (fun srv => srv.id = sid) with
        | some srv =>
          if srv.token = tok then
            ({ h with agentConnections := mapInsert h.agentConnections sid s.chanId },
             { s with authenticatedServerId := some sid,
                      sentFrames := s.sentFrames ++ [OutFrame.authOk] })
          else
            (h, { s with sentFrames :=
                    s.sentFrames ++ [OutFrame.authError "Invalid token"] })
        | none =>
          (h, { s with sentFrames :=
                  s.sentFrames ++ [OutFrame.authError "Server not found"] })
      | _, _ => (h, s)
    else if msg.msg_type = "metrics" then
      match s.authenticatedServerId with
      | some sid =>
        match msg.metrics with
        | some m => (ingestMetrics h sid s.clientIp m, s)
        | none => (h, s)
      | none =>
        (h, { s with sentFrames := s.sentFrames ++ [OutFrame.notAuthenticated] })
    else (h, s)

/-- One iteration of the session's `tokio::select!` loop.  The loop multiplexes
exactly two sources — the socket reader and the command inbox `cmd_rx` — so
wall-clock time passing on its own changes nothing but the clock. -/
def agentSessionStep (h : Hub) (s : Session) (ev : InEvent) : Hub × Session :=
  match ev with
  | InEvent.text m? => handleAgentText h s m?
  | InEvent.closeFrame => (h, { s with isOpen := false })
  | InEvent.ioError => (h, { s with isOpen := false })
  | InEvent.controlFrame => (h, s)
  | InEvent.cmdRecv =>
    match mapLookup h.channels s.chanId with
    | some ch =>
      match ch.queue with
      | c :: rest =>
        ({ h with channels := mapInsert h.channels s.chanId { ch with queue := rest } },
         { s with sentFrames := s.sentFrames ++ [OutFrame.commandFrame c] })
      | [] => if ch.closed then (h, { s with isOpen := false }) else (h, s)
    | none => (h, { s with isOpen := false })
  | InEvent.timePassed n => ({ h with now := h.now + (n : Int) }, s)

/-- Mark a session's channel closed (the `cmd_rx` half is dropped when
`handle_agent_socket` returns). -/
def closeChan (cs : List (Nat × Chan)) (cid : Nat) : List (Nat × Chan) :=
  cs.map (fun p => if p.1 = cid then (p.1, { p.2 with closed := true }) else p)

/-- The epilogue after the loop breaks (`websocket.rs:297-355`): when the
session had authenticated as `sid`, remove `sid` from `agent_connections` —
keyed by `server_id` only, with no check of which session's sender is stored —
and broadcast the disconnect snapshot; then the command channel closes. -/
def sessionFinish (h : Hub) (s : Session) : Hub :=
  let h1 :=
    match s.authenticatedServerId with
    | none => h
    | some sid =>
      { h with
        agentConnections := mapRemove h.agentConnections sid
        broadcasts := h.broadcasts ++
          [disconnectMessage h.servers h.agentMetrics h.now sid] }
  { h1 with channels := closeChan h1.channels s.chanId }

/-! ### Admin handlers (`handlers.rs`) -/

/-- Handler `DELETE /api/servers/:id` (`handlers.rs::delete_server`): drop the record
from the config document and the entry from `agent_metrics`; the
`agent_connections` sink for the id is not touched. -/
def deleteServer (h : Hub) (id : String) : Hub :=
  { h with
    servers := h.servers.filter (fun s => ¬ s.id = id)
    agentMetrics := mapRemove h.agentMetrics id }

/-- Model of `tokio::sync::mpsc::Sender::send(msg).await`: suspends until the bounded
queue has capacity, then enqueues; the call returns an error exactly when the
receiving half has been dropped.  The suspension is invisible to this
sequential model, so: `none` iff the channel is closed (or gone), otherwise
the enqueued state. -/
def mpscSend (h : Hub) (cid : Nat) (c : AgentCommand) : Option Hub :=
  match mapLookup h.channels cid with
  | some ch =>
    if ch.closed then none
    else some { h with channels := mapInsert h.channels cid { ch with queue := ch.queue ++ [c] } }
  | none => none

/-- Handler `POST /api/servers/:id/update` (`handlers.rs::update_agent`).
Serialization of `AgentCommand` cannot fail.  Note the send is awaited, not
`try_send`: the error branch fires on a closed channel, never on a full one. -/
def updateAgent (h : Hub) (sid : String) (durl : Option String) :
    Hub × UpdateAgentResponse :=
  match mapLookup h.agentConnections sid with
  | some cid =>
    match mpscSend h cid
        { cmd_type := "command", command := "update", download_url := durl } with
    | some h' =>
      (h', { success := true, message := "Update command sent to agent" })
    | none =>
      (h, { success := false, message := "Failed to send update command" })
  | none =>
    (h, { success := false, message := "Agent is not connected" })

/-! ### The 24h history query (`handlers.rs::get_history`, range "24h")
SQL: `WHERE server_id = ?1 AND timestamp >= ?2 AND (CAST(strftime(s, timestamp)
AS INTEGER) % 300) < 60 ORDER BY timestamp ASC` with `?2 = now - 24 h`.
Timestamps of real rows are nonnegative epoch seconds, where SQLite `%` and
Lean's `Int` `%` agree. -/

/-- The row selector of the 24h query. -/
def rawRowPred (sid : String) (cutoff : Int) (r : RawRow) : Prop :=
  r.server_id = sid ∧ cutoff ≤ r.timestamp ∧ r.timestamp % 300 < 60

instance rawRowPredDec (sid : String) (cutoff : Int) :
    DecidablePred (rawRowPred sid cutoff) := fun r => by
  unfold rawRowPred; infer_instance

/-- The `ORDER BY timestamp ASC` ordering. -/
def rowLE (a b : RawRow) : Prop := a.timestamp ≤ b.timestamp

instance rowLEDec : DecidableRel rowLE := fun a b => by
  unfold rowLE; infer_instance

instance rowLETotal : IsTotal RawRow rowLE :=
  ⟨fun a b => Int.le_total a.timestamp b.timestamp⟩

instance rowLETrans : IsTrans RawRow rowLE :=
  ⟨fun _ _ _ hab hbc => le_trans hab hbc⟩

/-- Model of `query_range("24h")`: the selected rows of the server from the last 24
hours, in ascending time order. -/
def queryRange24h (db : List RawRow) (sid : String) (now : Int) : List RawRow :=
  List.insertionSort rowLE
    (db.filter (fun r => rawRowPred sid (now - 86400) r))

/-! ### Agent self-update (`src/agent/src/websocket.rs::handle_update_command`)
The filesystem is the triple of entries at `<self>`, `<self>.new` and
`<self>.backup` (contents named by `Nat`), plus whether the process invoked
the platform restart hook and exited.  The four fallible operations —
download, set-permissions, the backup rename and the install rename — are
driven by an explicit failure oracle; the clean-up operations whose results
the source ignores (`let _ = remove_file/rename`) act on entries created
moments before in the same directory and are modelled as succeeding. -/

/-- Failure oracle for one run of the update command. -/
structure UpdCfg where
  downloadOk : Bool
  setPermOk : Bool
  renameBackupOk : Bool
  renameInstallOk : Bool
deriving DecidableEq

/-- Filesystem-and-process state during the update dance. -/
structure FsState where
  exe : Option Nat
  tempNew : Option Nat
  backup : Option Nat
  restartInvoked : Bool
  exited : Bool
deriving DecidableEq

/-- The state before the update command arrives: the running binary `orig`
installed at `<self>`, no temp file, no backup. -/
def initialFs (orig : Nat) : FsState :=
  { exe := some orig, tempNew := none, backup := none,
    restartInvoked := false, exited := false }

/-! ### Concrete fixtures used by witnesses and counterexamples -/

/-- A concrete OS descriptor. -/
def mOs : OsInfo :=
  { name := "Linux", version := "6.1", kernel := "6.1.0", arch := "x86_64" }

/-- A concrete sample (scenario 1 of spec §8: cpu 12.5 → we use 12,
memory 40 %, one disk at 80 %, no ping). -/
def mSample : SystemMetrics :=
  { timestamp := 1000
    hostname := "host1"
    os := mOs
    cpu := { brand := "c", cores := 2, usage := 12, frequency := 1000,
             per_core := [10, 14] }
    memory := { total := 100, used := 40, available := 60, swap_total := 0,
                swap_used := 0, usage_percent := 40 }
    disks := [{ name := "sda", mount_point := "/", fs_type := "ext4",
                total := 100, used := 80, available := 20, usage_percent := 80 }]
    network := { interfaces := [], total_rx := 0, total_tx := 0,
                 rx_speed := 0, tx_speed := 0 }
    uptime := 5
    load_average := { one := 0, five := 0, fifteen := 0 }
    ping := none
    version := some "1.0.0"
    ip_addresses := some ["10.0.0.1"] }

/-- The pre-populated credential of spec §8 scenario 1: id srv-1, token t. -/
def srv1 : RemoteServer :=
  { id := "srv-1", name := "one", url := "", location := "", provider := "",
    tag := "", token := "t", version := "", ip := "" }

/-- Empty site settings. -/
def emptySite : SiteSettings :=
  { site_name := "", site_description := "", social_links := [] }

/-- A fresh, open, empty command inbox. -/
def chanOpen : Chan := { queue := [], closed := false }

/-- A hub with one registered credential, two live channels and empty state. -/
def hub0 : Hub :=
  { servers := [srv1], siteSettings := emptySite, db := [], agentMetrics := [],
    agentConnections := [], channels := [(0, chanOpen), (1, chanOpen)],
    broadcasts := [], now := 1000 }

/-- Session A, on channel 0. -/
def sessA : Session := newSession 0 "198.51.100.7"

/-- Session B, on channel 1. -/
def sessB : Session := newSession 1 "198.51.100.8"

/-- Session A after a successful auth as srv-1. -/
def sessAuthA : Session := { sessA with authenticatedServerId := some "srv-1" }

/-- A well-formed auth frame carrying srv-1's correct token. -/
def authEvent : InEvent :=
  InEvent.text (some { msg_type := "auth", server_id := some "srv-1",
                       token := some "t", metrics := none })

/-- A registry entry for srv-1 accepted at wall-clock 1000. -/
def amEntry : AgentMetricsData :=
  { server_id := "srv-1", metrics := mSample, last_updated := 1000 }

/-- A registry holding just that entry. -/
def amFresh : List (String × AgentMetricsData) := [("srv-1", amEntry)]

/-- The hub right after srv-1's sample was accepted (`now` equals the
entry's `last_updated`). -/
def hubAm : Hub :=
  { hub0 with agentMetrics := amFresh, agentConnections := [("srv-1", 0)] }

/-- A hub where srv-1's agent session is connected on channel 0. -/
def hubConn : Hub := { hub0 with agentConnections := [("srv-1", 0)] }

/-- The update command frame with no download URL. -/
def updCmd : AgentCommand :=
  { cmd_type := "command", command := "update", download_url := none }

/-- A command inbox holding exactly its capacity of 16 frames. -/
def fullChan : Chan := { queue := List.replicate 16 updCmd, closed := false }

/-- A hub whose connected agent srv-1 has a full command inbox. -/
def hubFull : Hub :=
  { hub0 with agentConnections := [("srv-1", 0)], channels := [(0, fullChan)] }

/-- A raw row of srv-1 at second 99000 (99000 % 300 = 0: selected). -/
def qr1 : RawRow :=
  { server_id := "srv-1", timestamp := 99000, cpu := 1, memory := 2, disk := 3,
    net_rx := 4, net_tx := 5, ping_ms := none }

/-- A raw row of srv-1 at second 98000 (98000 % 300 = 200: not selected). -/
def qr2 : RawRow :=
  { server_id := "srv-1", timestamp := 98000, cpu := 6, memory := 7, disk := 8,
    net_rx := 9, net_tx := 10, ping_ms := some 3 }

/-- A raw row of a different server. -/
def qr3 : RawRow :=
  { server_id := "other", timestamp := 99300, cpu := 1, memory := 1, disk := 1,
    net_rx := 1, net_tx := 1, ping_ms := none }

/-- A small `metrics_raw` table. -/
def rawDb : List RawRow := [qr2, qr1, qr3]

/-- One hour of srv-1 rows at the agent's default 1-second sampling interval
(`default_interval` in src/agent/src/config.rs returns 1): one row per second
at epoch seconds 3600..7199. -/
def denseDb : List RawRow :=
  (List.range 3600).map (fun (i : Nat) =>
    { server_id := "srv-1", timestamp := 3600 + (i : Int), cpu := 0,
      memory := 0, disk := 0, net_rx := 0, net_tx := 0, ping_ms := none })

/-- Model of `handle_update_command`, with `orig` the running binary and `newBin` the
downloaded one:
download to `<self>.new` (on failure: log and return, nothing written);
set the executable bit (on failure: log and return — the temp file stays);
rename `<self>` to `<self>.backup` (on failure: remove the temp file, return);
rename `<self>.new` to `<self>` (on failure: rename the backup back, return —
a failed rename leaves its source in place);
then remove the backup, invoke the restart hook, and exit. -/
def runUpdateCommand (cfg : UpdCfg) (orig newBin : Nat) : FsState :=
  let st := initialFs orig
  if ¬ cfg.downloadOk then st
  else
    let st := { st with tempNew := some newBin }
    if ¬ cfg.setPermOk then st
    else if ¬ cfg.renameBackupOk then { st with tempNew := none }
    else
      let st := { st with backup := st.exe, exe := none }
      if ¬ cfg.renameInstallOk then
        { st with exe := st.backup, backup := none }
      else
        { st with exe := st.tempNew, tempNew := none, backup := none,
                  restartInvoked := true, exited := true }

/-! ## Helper lemmas -/

/-- Inserting a binding makes it the one found. -/
theorem mapLookup_mapInsert_self {κ α : Type} [DecidableEq κ]
    (m : List (κ × α)) (k : κ) (v : α) :
    mapLookup (mapInsert m k v) k = some v := by
  simp [mapInsert, mapLookup]

/-- Removing a key makes lookup fail. -/
theorem mapLookup_mapRemove_self {κ α : Type} [DecidableEq κ]
    (m : List (κ × α)) (k : κ) :
    mapLookup (mapRemove m k) k = none := by
  induction m with
  | nil => rfl
  | cons p rest ih =>
    by_cases hp : p.1 = k
    · simp [mapRemove, hp, ih]
    · simp [mapRemove, mapLookup, hp, ih]

/-! ## C1 — auth gating -/

/-- C1: on an agent session that has not yet authenticated, a `metrics` frame
leaves the hub state untouched: no `metrics_raw` row is inserted and no
registry entry (nor connection entry) is created or updated for any
`server_id`. -/
theorem auth_gating (h : Hub) (s : Session) (msg : AgentMessage)
    (hauth : s.authenticatedServerId = none)
    (hty : msg.msg_type = "metrics") :
    (agentSessionStep h s (InEvent.text (some msg))).1 = h := by
  have hne : ¬ msg.msg_type = "auth" := by rw [hty]; decide
  simp [agentSessionStep, handleAgentText, hne, hty, hauth]

/-- Witness for C1: a concrete pre-auth metrics frame changes nothing. -/
theorem auth_gating_witness :
    (agentSessionStep hub0 sessA
        (InEvent.text (some { msg_type := "metrics", server_id := none,
                              token := none, metrics := some mSample }))).1
      = hub0 :=
  auth_gating hub0 sessA _ rfl rfl

/-! ## C10 — malformed pre-auth frames are ignored -/

/-- C10: on a not-yet-authenticated session, a text frame that does not parse
as an agent message, or an auth frame missing `server_id` or `token`, produces
no response frame, does not close the connection, and leaves hub and session
unchanged. -/
theorem preauth_malformed_ignored (h : Hub) (s : Session) (msg : AgentMessage)
    (hauth : s.authenticatedServerId = none) (hopen : s.isOpen = true)
    (hty : msg.msg_type = "auth")
    (hmiss : msg.server_id = none ∨ msg.token = none) :
    agentSessionStep h s (InEvent.text none) = (h, s) ∧
    agentSessionStep h s (InEvent.text (some msg)) = (h, s) := by
  refine ⟨rfl, ?_⟩
  cases hsid : msg.server_id with
  | none =>
    cases htok : msg.token with
    | none => simp [agentSessionStep, handleAgentText, hty, hsid, htok]
    | some t => simp [agentSessionStep, handleAgentText, hty, hsid, htok]
  | some sid =>
    cases htok : msg.token with
    | none => simp [agentSessionStep, handleAgentText, hty, hsid, htok]
    | some t =>
      rcases hmiss with hm | hm
      · rw [hsid] at hm; cases hm
      · rw [htok] at hm; cases hm

/-- Witness for C10: concrete unparseable and field-missing frames. -/
theorem preauth_malformed_ignored_witness :
    agentSessionStep hub0 sessA (InEvent.text none) = (hub0, sessA) ∧
    agentSessionStep hub0 sessA
        (InEvent.text (some { msg_type := "auth", server_id := some "srv-1",
                              token := none, metrics := none }))
      = (hub0, sessA) :=
  preauth_malformed_ignored hub0 sessA _ rfl rfl rfl (Or.inr rfl)

/-! ## C3 — rejected auth: error frame, but the session is NOT closed -/

/-- C3 counterexample: with credential (srv-1, t) stored, an auth frame with a
wrong token draws the `Invalid token` error frame, yet the connection stays
open — the hub does not close it, contradicting the claim. -/
theorem auth_reject_no_close_counterexample :
    (agentSessionStep hub0 sessA
        (InEvent.text (some { msg_type := "auth", server_id := some "srv-1",
                              token := some "wrong", metrics := none }))).2.sentFrames
      = [OutFrame.authError "Invalid token"] ∧
    (agentSessionStep hub0 sessA
        (InEvent.text (some { msg_type := "auth", server_id := some "srv-1",
                              token := some "wrong", metrics := none }))).2.isOpen
      = true := by
  constructor <;> rfl

/-- C3 amended: an auth frame with an unknown `server_id` or a mismatched
token draws exactly one `status:error` frame with a human-readable message
(`Server not found` or `Invalid token`), the hub state is unchanged, and the
session is left exactly as it was — still open, not closed; the hub itself
never initiates a retry (it only reacts to frames the agent sends later). -/
theorem auth_reject_amended (h : Hub) (s : Session) (msg : AgentMessage)
    (sid tok : String)
    (hty : msg.msg_type = "auth")
    (hsid : msg.server_id = some sid) (htok : msg.token = some tok)
    (hbad : ∀ srv ∈ h.servers, srv.id = sid → ¬ srv.token = tok) :
    ∃ m : String,
      agentSessionStep h s (InEvent.text (some msg))
        = (h, { s with sentFrames := s.sentFrames ++ [OutFrame.authError m] }) ∧
      (m = "Server not found" ∨ m = "Invalid token") := by
  cases hfind : h.servers.find? (fun srv => srv.id = sid) with
  | none =>
    refine ⟨"Server not found", ?_, Or.inl rfl⟩
    simp [agentSessionStep, handleAgentText, hty, hsid, htok, hfind]
  | some srv =>
    have hmem : srv ∈ h.servers := List.mem_of_find?_eq_some hfind
    have hid : srv.id = sid := by
      have := List.find?_some hfind
      simpa using this
    refine ⟨"Invalid token", ?_, Or.inr rfl⟩
    simp [agentSessionStep, handleAgentText, hty, hsid, htok, hfind,
          hbad srv hmem hid]

/-- Witness for the amended C3 at a concrete wrong-token auth. -/
theorem auth_reject_amended_witness :
    ∃ m : String,
      agentSessionStep hub0 sessA
          (InEvent.text (some { msg_type := "auth", server_id := some "srv-1",
                                token := some "wrong", metrics := none }))
        = (hub0, { sessA with
                   sentFrames := sessA.sentFrames ++ [OutFrame.authError m] }) ∧
      (m = "Server not found" ∨ m = "Invalid token") :=
  auth_reject_amended hub0 sessA _ "srv-1" "wrong" rfl rfl rfl (by decide)

/-! ## C7 — there is no 10-second handshake timeout -/

/-- C7 counterexample: a connection that has sent nothing for 11 seconds is
still open, unauthenticated, and has been sent no frame — the hub never
closes it, contradicting the claimed 10-second handshake deadline. -/
theorem no_handshake_timeout_counterexample :
    (agentSessionStep hub0 sessA (InEvent.timePassed 11)).2.isOpen = true ∧
    (agentSessionStep hub0 sessA (InEvent.timePassed 11)).2.sentFrames = [] ∧
    (agentSessionStep hub0 sessA (InEvent.timePassed 11)).2.authenticatedServerId
      = none := by
  refine ⟨rfl, rfl, rfl⟩

/-- C7 amended: the session loop multiplexes only the socket reader and the
command inbox — it has no timer branch, so the hub enforces no handshake
timeout at all: wall-clock time passing changes nothing but the clock, for
any amount of time and any session state. -/
theorem no_handshake_timeout (h : Hub) (s : Session) (n : Nat) :
    (agentSessionStep h s (InEvent.timePassed n)).2 = s ∧
    (agentSessionStep h s (InEvent.timePassed n)).1
      = { h with now := h.now + (n : Int) } :=
  ⟨rfl, rfl⟩

/-! ## C2 — same-id re-registration and CLEANUP -/

/-- C2 counterexample: sessions A (channel 0) and B (channel 1) both
authenticate as srv-1; B's registration replaces A's; when A's CLEANUP then
runs, it removes the registry entry by `server_id` alone — wiping out B's
inbox, contradicting the claim that cleanup checks session identity. -/
theorem cleanup_removes_newer_counterexample :
    (agentSessionStep hub0 sessA authEvent).2.authenticatedServerId
        = some "srv-1" ∧
    mapLookup (agentSessionStep
        (agentSessionStep hub0 sessA authEvent).1 sessB authEvent).1.agentConnections
        "srv-1" = some 1 ∧
    mapLookup (sessionFinish
        (agentSessionStep
          (agentSessionStep hub0 sessA authEvent).1 sessB authEvent).1
        (agentSessionStep hub0 sessA authEvent).2).agentConnections
        "srv-1" = none := by
  refine ⟨rfl, rfl, rfl⟩

/-- C2 amended: when a session authenticates with a valid credential, its
channel id replaces whatever was registered under that `server_id` (the newer
registration wins); but CLEANUP of any session authenticated as that id
removes the registry entry unconditionally — keyed by `server_id` only, with
no identity check — so the older session's cleanup does remove the newer
session's inbox. -/
theorem session_replace_and_cleanup (h : Hub) (sB : Session) (msg : AgentMessage)
    (sid tok : String) (srv : RemoteServer)
    (hty : msg.msg_type = "auth")
    (hsid : msg.server_id = some sid) (htok : msg.token = some tok)
    (hfind : h.servers.find? (fun srv => srv.id = sid) = some srv)
    (htokeq : srv.token = tok) :
    mapLookup (agentSessionStep h sB (InEvent.text (some msg))).1.agentConnections
        sid = some sB.chanId ∧
    ∀ (h' : Hub) (sA : Session), sA.authenticatedServerId = some sid →
      mapLookup (sessionFinish h' sA).agentConnections sid = none := by
  constructor
  · simp [agentSessionStep, handleAgentText, hty, hsid, htok, hfind, htokeq,
          mapLookup_mapInsert_self]
  · intro h' sA hA
    simp [sessionFinish, hA, mapLookup_mapRemove_self]

/-- Witness for the amended C2 at the concrete two-session scenario. -/
theorem session_replace_and_cleanup_witness :
    mapLookup (agentSessionStep hub0 sessB
        (InEvent.text (some { msg_type := "auth", server_id := some "srv-1",
                              token := some "t", metrics := none }))).1.agentConnections
        "srv-1" = some 1 ∧
    mapLookup (sessionFinish hubConn sessAuthA).agentConnections "srv-1" = none :=
  ⟨(session_replace_and_cleanup hub0 sessB
      { msg_type := "auth", server_id := some "srv-1", token := some "t",
        metrics := none } "srv-1" "t" srv1
      rfl rfl rfl (by decide) rfl).1,
   (session_replace_and_cleanup hub0 sessB
      { msg_type := "auth", server_id := some "srv-1", token := some "t",
        metrics := none } "srv-1" "t" srv1
      rfl rfl rfl (by decide) rfl).2 hubConn sessAuthA rfl⟩

/-! ## C9 — deleting a server leaves its command sink registered -/

/-- C9: `DELETE /api/servers/:id` removes the server's config record and its
registry entry but not its command sink; a subsequent
`POST /api/servers/:id/update` for the still-connected agent succeeds. -/
theorem delete_server_keeps_sink (h : Hub) (id : String) (cid : Nat) (ch : Chan)
    (durl : Option String)
    (hconn : mapLookup h.agentConnections id = some cid)
    (hch : mapLookup h.channels cid = some ch)
    (hopen : ch.closed = false) :
    (deleteServer h id).servers = h.servers.filter (fun s => ¬ s.id = id) ∧
    mapLookup (deleteServer h id).agentMetrics id = none ∧
    (deleteServer h id).agentConnections = h.agentConnections ∧
    (updateAgent (deleteServer h id) id durl).2.success = true ∧
    (updateAgent (deleteServer h id) id durl).2.message
      = "Update command sent to agent" := by
  refine ⟨rfl, ?_, rfl, ?_, ?_⟩
  · simp [deleteServer, mapLookup_mapRemove_self]
  · simp [updateAgent, deleteServer, hconn, mpscSend, hch, hopen]
  · simp [updateAgent, deleteServer, hconn, mpscSend, hch, hopen]

/-- Witness for C9: deleting srv-1 while its agent is connected, then posting
an update, yields success. -/
theorem delete_server_keeps_sink_witness :
    (deleteServer hubConn "srv-1").servers
        = hubConn.servers.filter (fun s => ¬ s.id = "srv-1") ∧
    mapLookup (deleteServer hubConn "srv-1").agentMetrics "srv-1" = none ∧
    (deleteServer hubConn "srv-1").agentConnections = hubConn.agentConnections ∧
    (updateAgent (deleteServer hubConn "srv-1") "srv-1" none).2.success = true ∧
    (updateAgent (deleteServer hubConn "srv-1") "srv-1" none).2.message
      = "Update command sent to agent" :=
  delete_server_keeps_sink hubConn "srv-1" 0 chanOpen none
    (by decide) (by decide) rfl

/-! ## C6 — update command delivery -/

/-- C6 counterexample: with srv-1's sink registered and its inbox holding
exactly its capacity of 16 frames, the handler still answers `success:true`
(the awaited send waits for capacity instead of failing), contradicting the
claim that a full inbox yields `Failed to send update command`. -/
theorem update_agent_full_counterexample :
    fullChan.queue.length = 16 ∧
    mapLookup hubFull.agentConnections "srv-1" = some 0 ∧
    mapLookup hubFull.channels 0 = some fullChan ∧
    (updateAgent hubFull "srv-1" none).2
      = { success := true, message := "Update command sent to agent" } := by
  refine ⟨rfl, rfl, rfl, rfl⟩

/-- C6 amended: `POST /api/servers/:id/update` answers
`success:false, Agent is not connected` when no sink is registered for the id;
with a registered sink whose channel is open, exactly one
`type:command, command:update` frame (carrying the optional download URL) is
appended to that inbox — the send is awaited, so a full inbox delays rather
than fails — and the response is `success:true`; the
`Failed to send update command` response occurs when the registered sink's
channel is closed (its session has ended), not when the inbox is full. -/
theorem update_agent_amended (h : Hub) (sid : String) (durl : Option String) :
    (mapLookup h.agentConnections sid = none →
      updateAgent h sid durl
        = (h, { success := false, message := "Agent is not connected" })) ∧
    (∀ cid ch, mapLookup h.agentConnections sid = some cid →
      mapLookup h.channels cid = some ch →
      (ch.closed = false →
        updateAgent h sid durl
          = ({ h with channels :=
                        mapInsert h.channels cid
                          ({ ch with queue := ch.queue ++
                              [{ cmd_type := "command", command := "update",
                                 download_url := durl }] }) },
             { success := true, message := "Update command sent to agent" })) ∧
      (ch.closed = true →
        updateAgent h sid durl
          = (h, { success := false,
                  message := "Failed to send update command" }))) := by
  refine ⟨?_, ?_⟩
  · intro hn
    simp [updateAgent, hn]
  · intro cid ch hc hch
    constructor
    · intro hopen
      simp [updateAgent, hc, mpscSend, hch, hopen]
    · intro hcl
      simp [updateAgent, hc, mpscSend, hch, hcl]

/-- Witness for the amended C6: enqueue into the connected agent's open,
empty inbox. -/
theorem update_agent_amended_witness :
    updateAgent hubConn "srv-1" none
      = ({ hubConn with channels :=
                          mapInsert hubConn.channels 0
                            ({ chanOpen with
                                queue := chanOpen.queue ++ [updCmd] }) },
         { success := true, message := "Update command sent to agent" }) :=
  ((update_agent_amended hubConn "srv-1" none).2 0 chanOpen
    (by decide) (by decide)).1 rfl

/-! ## C4 — the online window -/

/-- C4 counterexample: srv-1's sample was accepted at the very instant of its
disconnect (`now − last_updated = 0 < 30`), yet the per-disconnect broadcast
reports it `online = false` — the disconnect snapshot forces the leaving
server offline, contradicting the claimed iff. -/
theorem online_disconnect_counterexample :
    (sessionFinish hubAm sessAuthA).broadcasts.map
        (fun msg => msg.servers.map (fun u => (u.server_id, u.online)))
      = [[("srv-1", false)]] ∧
    mapLookup hubAm.agentMetrics "srv-1" = some amEntry ∧
    hubAm.now - amEntry.last_updated < 30 := by
  refine ⟨rfl, rfl, by decide⟩

/-- C4 amended: in the initial-attach snapshot, the per-ingest broadcast and
`GET /api/metrics/all` — all of which compose with `leaving = none` — a
server's `online` flag is true iff a registry entry exists for it and
`now − last_updated < 30`; a server with no registry entry is offline.  In
the per-disconnect broadcast the leaving server is reported offline
unconditionally, and every other server follows the same window. -/
theorem online_window_amended (h : Hub) (am : List (String × AgentMetricsData))
    (now : Int) (server : RemoteServer) :
    (dashboardAttachMessage h).servers
        = h.servers.map (composeUpdate h.agentMetrics h.now none) ∧
    getAllMetrics h = h.servers.map (composeUpdate h.agentMetrics h.now none) ∧
    (∀ sid ip m, (ingestMetrics h sid ip m).broadcasts
        = h.broadcasts ++
          [{ msg_type := "metrics"
             servers := (ingestMetrics h sid ip m).servers.map
               (composeUpdate (ingestMetrics h sid ip m).agentMetrics h.now none)
             site_settings := none }]) ∧
    (∀ (s : Session) sid, s.authenticatedServerId = some sid →
      (sessionFinish h s).broadcasts
        = h.broadcasts ++ [disconnectMessage h.servers h.agentMetrics h.now sid]) ∧
    ((composeUpdate am now none server).online = true ↔
      ∃ d, mapLookup am server.id = some d ∧ now - d.last_updated < 30) ∧
    (mapLookup am server.id = none →
      (composeUpdate am now none server).online = false) ∧
    (composeUpdate am now (some server.id) server).online = false ∧
    (∀ sid, ¬ sid = server.id →
      (composeUpdate am now (some sid) server).online
        = (composeUpdate am now none server).online) := by
  refine ⟨rfl, rfl, ?_, ?_, ?_, ?_, ?_, ?_⟩
  · intro sid ip m
    rfl
  · intro s sid hs
    simp [sessionFinish, hs]
  · cases hmd : mapLookup am server.id with
    | none => simp [composeUpdate, hmd]
    | some d => simp [composeUpdate, hmd]
  · intro hmd
    simp [composeUpdate, hmd]
  · simp [composeUpdate]
  · intro sid hne
    simp [composeUpdate, hne]

/-- Witness for the amended C4: a fresh registry entry makes srv-1 online in a
`leaving = none` composition. -/
theorem online_window_amended_witness :
    (composeUpdate amFresh 1000 none srv1).online = true :=
  (online_window_amended hubAm amFresh 1000 srv1).2.2.2.2.1.mpr
    ⟨amEntry, rfl, by decide⟩

/-! ## C8 — agent self-update atomicity -/

/-- C8: for every failure configuration of the four fallible steps (download,
set-permissions, backup rename, install rename), any failure before the final
rename leaves the original binary installed at the executable path with no
backup in effect, and the process neither invokes the restart hook nor exits;
only when every step succeeds is the new binary installed, the backup
removed, the restart hook invoked and the process exited. -/
theorem update_atomicity (cfg : UpdCfg) (orig newBin : Nat) :
    ((cfg.downloadOk = true ∧ cfg.setPermOk = true ∧ cfg.renameBackupOk = true ∧
        cfg.renameInstallOk = true) →
      runUpdateCommand cfg orig newBin
        = { exe := some newBin, tempNew := none, backup := none,
            restartInvoked := true, exited := true }) ∧
    (¬ (cfg.downloadOk = true ∧ cfg.setPermOk = true ∧ cfg.renameBackupOk = true ∧
        cfg.renameInstallOk = true) →
      (runUpdateCommand cfg orig newBin).exe = some orig ∧
      (runUpdateCommand cfg orig newBin).backup = none ∧
      (runUpdateCommand cfg orig newBin).restartInvoked = false ∧
      (runUpdateCommand cfg orig newBin).exited = false) := by
  obtain ⟨d, p, b, i⟩ := cfg
  cases d <;> cases p <;> cases b <;> cases i <;>
    simp [runUpdateCommand, initialFs]

/-- Witness for C8: a failed backup rename leaves the original binary in
place without exiting. -/
theorem update_atomicity_witness :
    (runUpdateCommand
        { downloadOk := true, setPermOk := true, renameBackupOk := false,
          renameInstallOk := true } 7 9).exe = some 7 ∧
    (runUpdateCommand
        { downloadOk := true, setPermOk := true, renameBackupOk := false,
          renameInstallOk := true } 7 9).backup = none ∧
    (runUpdateCommand
        { downloadOk := true, setPermOk := true, renameBackupOk := false,
          renameInstallOk := true } 7 9).restartInvoked = false ∧
    (runUpdateCommand
        { downloadOk := true, setPermOk := true, renameBackupOk := false,
          renameInstallOk := true } 7 9).exited = false :=
  (update_atomicity
    { downloadOk := true, setPermOk := true, renameBackupOk := false,
      renameInstallOk := true } 7 9).2 (by decide)

/-! ## C5 — the 24h range query -/

/-- A strictly increasing integer list confined to `[lo, hi]` has at most
`hi - lo + 1` elements. -/
theorem length_le_of_pairwise_lt :
    ∀ (l : List Int) (lo hi : Int), l.Pairwise (fun a b => a < b) →
      (∀ x ∈ l, lo ≤ x ∧ x ≤ hi) → l.length ≤ (hi - lo + 1).toNat := by
  intro l
  induction l with
  | nil => intro lo hi _ _; simp
  | cons x t ih =>
    intro lo hi hpw hbd
    have hx := hbd x (List.mem_cons_self x t)
    have hrel : ∀ y ∈ t, x < y := (List.pairwise_cons.mp hpw).1
    have ht : t.length ≤ (hi - (x + 1) + 1).toNat := by
      refine ih (x + 1) hi (List.Pairwise.of_cons hpw) ?_
      intro y hy
      exact ⟨by have := hrel y hy; omega,
             (hbd y (List.mem_cons_of_mem x hy)).2⟩
    simp only [List.length_cons]
    omega

/-- Two timestamps both in the first 60 seconds of their 300-second block and
at least 60 seconds apart fall into distinct blocks. -/
theorem ediv300_lt (a b : Int) (ha : a % 300 < 60) (hb : b % 300 < 60)
    (hab : a + 60 ≤ b) : a / 300 < b / 300 := by
  have h1 : 300 * (a / 300) + a % 300 = a := Int.ediv_add_emod a 300
  have h2 : 300 * (b / 300) + b % 300 = b := Int.ediv_add_emod b 300
  have h3 : 0 ≤ a % 300 := Int.emod_nonneg a (by norm_num)
  have h4 : 0 ≤ b % 300 := Int.emod_nonneg b (by norm_num)
  omega

set_option maxRecDepth 100000 in
/-- C5 counterexample: at the agent's default 1-second sampling interval, one
hour of srv-1 samples (3600 rows) already makes the 24h query return 720 rows
— the selector keeps every row of the first 60 seconds of each 300-second
block, so nothing caps the count at ⌈24·60/5⌉ = 288 plus a tolerance; a full
day at this cadence would return about 17,280 rows. -/
theorem query24h_cadence_counterexample :
    denseDb.length = 3600 ∧
    (queryRange24h denseDb "srv-1" 90000).length = 720 := by
  constructor
  · unfold denseDb
    rw [List.length_map, List.length_range]
  · have h1 : (queryRange24h denseDb "srv-1" 90000).length
        = (denseDb.filter
            (fun r => rawRowPred "srv-1" (90000 - 86400) r)).length :=
      (List.perm_insertionSort rowLE _).length_eq
    rw [h1]
    decide

/-- C5 amended: `query_range("24h")` returns exactly the raw rows of the
requested server from the last 24 hours whose second-of-epoch mod 300 is
below 60 (a permutation of that filter, so exactly as many rows as the filter
keeps), in ascending time order.  The ⌈24·60/5⌉-plus-tolerance per-server
bound holds only under a sampling cadence of one row per minute or sparser:
when the server's rows are pairwise at least 60 seconds apart and none lies
in the future, the result has at most 289 rows. -/
theorem query_range_24h_amended (db : List RawRow) (sid : String) (now : Int) :
    (queryRange24h db sid now).Perm
        (db.filter (fun r => rawRowPred sid (now - 86400) r)) ∧
    List.Sorted rowLE (queryRange24h db sid now) ∧
    (queryRange24h db sid now).length
      = (db.filter (fun r => rawRowPred sid (now - 86400) r)).length ∧
    ((∀ r ∈ db, r.server_id = sid → r.timestamp ≤ now) →
      (db.filter (fun r => r.server_id = sid)).Pairwise
          (fun a b => 60 ≤ |a.timestamp - b.timestamp|) →
      (queryRange24h db sid now).length ≤ 289) := by
  have hperm : (queryRange24h db sid now).Perm
      (db.filter (fun r => rawRowPred sid (now - 86400) r)) :=
    List.perm_insertionSort rowLE _
  have hsort : List.Sorted rowLE (queryRange24h db sid now) :=
    List.sorted_insertionSort rowLE _
  refine ⟨hperm, hsort, hperm.length_eq, ?_⟩
  intro hpast hspace
  set L := queryRange24h db sid now with hLdef
  have hmemP : ∀ r ∈ L, rawRowPred sid (now - 86400) r := by
    intro r hr
    have h1 := List.mem_filter.mp (hperm.mem_iff.mp hr)
    simpa using h1.2
  have hmemDb : ∀ r ∈ L, r ∈ db := fun r hr =>
    (List.mem_filter.mp (hperm.mem_iff.mp hr)).1
  have hsubl : List.Sublist (db.filter (fun r => rawRowPred sid (now - 86400) r))
      (db.filter (fun r => r.server_id = sid)) := by
    refine List.monotone_filter_right db ?_
    intro r hrp
    simp only [decide_eq_true_eq] at hrp ⊢
    exact hrp.1
  have hpwAbs : L.Pairwise (fun a b => 60 ≤ |a.timestamp - b.timestamp|) := by
    refine (List.Perm.pairwise_iff ?_ hperm).mpr
      (List.Pairwise.sublist hsubl hspace)
    intro x y hxy
    rw [abs_sub_comm]
    exact hxy
  have hpwGap : L.Pairwise (fun a b => a.timestamp + 60 ≤ b.timestamp) := by
    refine List.Pairwise.imp ?_ (List.Pairwise.and hsort hpwAbs)
    intro a b hab
    obtain ⟨h1, h2⟩ := hab
    have h1' : a.timestamp ≤ b.timestamp := h1
    rcases abs_cases (a.timestamp - b.timestamp) with ⟨he, h3⟩ | ⟨he, h3⟩ <;>
      (rw [he] at h2; omega)
  have hpwBlocks : (L.map (fun r => r.timestamp / 300)).Pairwise
      (fun a b => a < b) := by
    rw [List.pairwise_map]
    refine List.Pairwise.imp_of_mem ?_ hpwGap
    intro a b ha hb hab
    exact ediv300_lt a.timestamp b.timestamp
      (hmemP a ha).2.2 (hmemP b hb).2.2 hab
  have hbounds : ∀ x ∈ L.map (fun r => r.timestamp / 300),
      (now - 86400) / 300 ≤ x ∧ x ≤ now / 300 := by
    intro x hx
    obtain ⟨r, hr, hrx⟩ := List.mem_map.mp hx
    obtain ⟨hsid', hcut, _⟩ := hmemP r hr
    have hub : r.timestamp ≤ now := hpast r (hmemDb r hr) hsid'
    subst hrx
    exact ⟨Int.ediv_le_ediv (by norm_num) hcut,
           Int.ediv_le_ediv (by norm_num) hub⟩
  have hlen := length_le_of_pairwise_lt (L.map (fun r => r.timestamp / 300))
    ((now - 86400) / 300) (now / 300) hpwBlocks hbounds
  have hdiv : now / 300 = (now - 86400) / 300 + 288 := by
    conv_lhs => rw [show now = (now - 86400) + 288 * 300 by ring]
    exact Int.add_mul_ediv_right _ _ (by norm_num)
  rw [List.length_map] at hlen
  omega

/-- Witness for the amended C5 on a concrete three-row table: of srv-1's two
rows in the window, exactly the one at a selected second survives, sorted,
within the sparse-cadence bound. -/
theorem query_range_24h_amended_witness :
    (queryRange24h rawDb "srv-1" 100000).Perm
        (rawDb.filter (fun r => rawRowPred "srv-1" (100000 - 86400) r)) ∧
    List.Sorted rowLE (queryRange24h rawDb "srv-1" 100000) ∧
    (queryRange24h rawDb "srv-1" 100000).length
      = (rawDb.filter (fun r => rawRowPred "srv-1" (100000 - 86400) r)).length ∧
    (queryRange24h rawDb "srv-1" 100000).length ≤ 289 :=
  have h := query_range_24h_amended rawDb "srv-1" 100000
  ⟨h.1, h.2.1, h.2.2.1, h.2.2.2 (by decide) (by decide)⟩

end VStats
